import Mathlib

/-!
Verification of the kars media-tracker domain model and its two mapping
layers (wire and persistence), embedded from the Rust sources
src/backend/src/core/models.rs, src/backend/src/core/api_types.rs and
src/backend/src/infra/database.rs.

Modelling conventions:
- Rust u8 / u32 / i64 are modelled as Nat / Int; where the source performs
  an as-cast the embedding applies the corresponding truncation explicitly.
- Rust f32 arithmetic (score scaling, progress percentage) is modelled as
  exact rational arithmetic over the same formulas.
- The uuid crate is external to the repository; it is modelled by its
  canonical hyphenated lowercase string form: a Uuid is such a string,
  to_string is the identity and parse accepts exactly canonical strings.
  The crate also accepts some alternative spellings; no claim depends on
  them, and the crate error text is elided to a fixed message.
- HashSet of String is modelled as Finset String; the unspecified iteration
  order of the Rust HashSet is modelled by a canonical sorted enumeration
  (the claims compare tag sets, which are insensitive to order).
- serde_json is external vendor code; the tags TEXT column is modelled at
  the JSON value level: some list when the column holds a JSON array of
  strings, none when the column is missing or malformed.
-/

/-! ## Core model (src/backend/src/core/models.rs) -/

inductive WatchStatus where
  | Watching
  | PlanToWatch
  | Completed
  | OnHold
  | Dropped
deriving DecidableEq, Repr

inductive ReadStatus where
  | Reading
  | PlanToRead
  | Completed
  | OnHold
  | Dropped
deriving DecidableEq, Repr

structure Progress where
  current : Nat
  total : Option Nat
deriving DecidableEq, Repr

/-- Progress.percent from models.rs; f32 modelled as exact rationals. -/
def Progress.percent (p : Progress) : Option ℚ :=
  match p.total with
  | some t => if 0 < t then some ((p.current : ℚ) / (t : ℚ) * 100) else some 0
  | none => none

/-- Progress.is_finished from models.rs. -/
def Progress.is_finished (p : Progress) : Bool :=
  match p.total with
  | some t => decide (0 < t) && decide (t ≤ p.current)
  | none => false

inductive ReadableKind where
  | Book
  | WebNovel
  | LightNovel
  | Manga
  | Manhwa
  | Webtoon
deriving DecidableEq, Repr

inductive MediaItemType where
  | Movie (ws : WatchStatus)
  | Series (p : Progress) (ws : WatchStatus)
  | Readable (k : ReadableKind) (p : Progress) (rs : ReadStatus)
deriving DecidableEq, Repr

/-- Canonical hyphenated lowercase UUID text: 36 chars, hyphens at
positions 8, 13, 18 and 23, lowercase hex digits elsewhere. -/
def isUuidByte (i : Nat) (c : Char) : Bool :=
  if i = 8 ∨ i = 13 ∨ i = 18 ∨ i = 23 then decide (c = '-')
  else (decide ('0' ≤ c) && decide (c ≤ '9')) || (decide ('a' ≤ c) && decide (c ≤ 'f'))

def isCanonicalUuid (s : String) : Bool :=
  decide (s.length = 36) && s.toList.enum.all (fun p => isUuidByte p.1 p.2)

/-- Model of uuid::Uuid: its canonical string form (see file header). -/
abbrev Uuid := { s : String // isCanonicalUuid s = true }

/-- Model of Uuid::to_string. -/
def Uuid.toCanonical (u : Uuid) : String := u.val

/-- Model of Uuid::parse_str, restricted to the canonical form. -/
def Uuid.parse_str (s : String) : Option Uuid :=
  if h : isCanonicalUuid s = true then some ⟨s, h⟩ else none

structure MediaItem where
  id : Uuid
  title : String
  media_type : MediaItemType
  score : Option Nat
  global_score : Option Nat
  external_id : Option Nat
  poster_url : Option String
  source : Option String
  tags : Finset String
deriving DecidableEq

/-- Rust f32::round (round half away from zero), over ℚ. -/
def f32_round (q : ℚ) : Int :=
  if 0 ≤ q then ⌊q + 1/2⌋ else -⌊-q + 1/2⌋

/-- Rust f32::clamp(lo, hi), over ℚ. -/
def f32_clamp (x lo hi : ℚ) : ℚ := min (max x lo) hi

/-- MediaItem::clamp_score from models.rs; the final as-u8 cast saturates,
modelled by toNat (negative to 0) capped at 255. -/
def MediaItem.clamp_score (input_score : ℚ) : Nat :=
  min (f32_round (f32_clamp input_score 0 10 * 10)).toNat 255

/-- MediaItem::score_display from models.rs. -/
def MediaItem.score_display (score : Option Nat) : Option ℚ :=
  score.map (fun s => (s : ℚ) / 10)

def MediaItem.set_score (m : MediaItem) (input_score : ℚ) : MediaItem :=
  { m with score := some (MediaItem.clamp_score input_score) }

def MediaItem.set_global_score (m : MediaItem) (input_score : ℚ) : MediaItem :=
  { m with global_score := some (MediaItem.clamp_score input_score) }

def MediaItem.get_score_display (m : MediaItem) : Option ℚ :=
  MediaItem.score_display m.score

def MediaItem.get_global_score_display (m : MediaItem) : Option ℚ :=
  MediaItem.score_display m.global_score

/-- MediaItem::is_completed from models.rs; match arms in source order. -/
def MediaItem.is_completed (m : MediaItem) : Bool :=
  match m.media_type with
  | .Movie .Completed => true
  | .Series _ .Completed => true
  | .Readable _ _ .Completed => true
  | .Series p _ => p.is_finished
  | .Readable _ p _ => p.is_finished
  | _ => false

/-- MediaItem::force_complete from models.rs: status to Completed; for
Series and Readable, total := total.or(current) then current := total. -/
def MediaItem.force_complete (m : MediaItem) : MediaItem :=
  { m with media_type :=
      match m.media_type with
      | .Movie _ => .Movie .Completed
      | .Series p _ =>
          let t := p.total.getD p.current
          .Series ⟨t, some t⟩ .Completed
      | .Readable k p _ =>
          let t := p.total.getD p.current
          .Readable k ⟨t, some t⟩ .Completed }

/-- Canonical enumeration of a tag set, modelling HashSet iteration. -/
def tagsToList (s : Finset String) : List String :=
  s.sort (· ≤ ·)

/-- Rust type-range well-formedness of a MediaItem: in the source, scores
are u8, progress counters and external_id are u32. -/
def Progress.wf (p : Progress) : Bool :=
  decide (p.current < 2 ^ 32) && p.total.all (fun t => decide (t < 2 ^ 32))

def MediaItem.wf (m : MediaItem) : Bool :=
  m.score.all (fun s => decide (s < 256)) &&
  m.global_score.all (fun s => decide (s < 256)) &&
  m.external_id.all (fun e => decide (e < 2 ^ 32)) &&
  (match m.media_type with
   | .Movie _ => true
   | .Series p _ => p.wf
   | .Readable _ p _ => p.wf)

/-! ## Wire layer (src/backend/src/core/api_types.rs) -/

/-- Flat JSON representation for the REST API; f32 score fields as ℚ. -/
structure ApiMediaItem where
  id : String
  title : String
  media_type : String
  status : String
  score : Option ℚ
  global_score : Option ℚ
  progress : Nat
  total_episodes : Option Nat
  poster_url : Option String
  source : Option String
  external_id : Option String
  tags : List String
  favorite : Bool
deriving DecidableEq, Repr

namespace Api

def watch_status_str : WatchStatus → String
  | .Watching => "watching"
  | .PlanToWatch => "plan_to_watch"
  | .Completed => "completed"
  | .OnHold => "on_hold"
  | .Dropped => "dropped"

def read_status_str : ReadStatus → String
  | .Reading => "reading"
  | .PlanToRead => "plan_to_read"
  | .Completed => "completed"
  | .OnHold => "on_hold"
  | .Dropped => "dropped"

def readable_kind_str : ReadableKind → String
  | .Manga => "manga"
  | .Manhwa => "manhwa"
  | .Webtoon => "webtoon"
  | .Book => "book"
  | .LightNovel => "light_novel"
  | .WebNovel => "web_novel"

def parse_watch_status (s : String) : WatchStatus :=
  match s with
  | "watching" | "reading" => .Watching
  | "plan_to_watch" | "plan_to_read" => .PlanToWatch
  | "completed" => .Completed
  | "on_hold" => .OnHold
  | "dropped" => .Dropped
  | _ => .PlanToWatch

def parse_read_status (s : String) : ReadStatus :=
  match s with
  | "reading" | "watching" => .Reading
  | "plan_to_read" | "plan_to_watch" => .PlanToRead
  | "completed" => .Completed
  | "on_hold" => .OnHold
  | "dropped" => .Dropped
  | _ => .PlanToRead

end Api

/-- Model of Rust str::parse::<u32>: optional leading plus sign, then one
or more decimal digits, value below 2^32 (stepwise overflow checking in
the source is equivalent to the final bound for all-digit input). -/
def parseU32 (s : String) : Option Nat :=
  let ds := match s.toList with
    | '+' :: rest => rest
    | cs => cs
  if ds = [] then none
  else if ds.all Char.isDigit then
    let v := ds.foldl (fun a c => a * 10 + (c.toNat - 48)) 0
    if v < 2 ^ 32 then some v else none
  else none

/-- From<&MediaItem> for ApiMediaItem (api_types.rs lines 35-68). -/
def ApiMediaItem.from_media_item (item : MediaItem) : ApiMediaItem :=
  let mtp : String × String × Nat × Option Nat :=
    match item.media_type with
    | .Movie ws => ("movie", Api.watch_status_str ws, 0, none)
    | .Series p ws =>
        (if item.source = some "anilist" then "anime" else "series",
         Api.watch_status_str ws, p.current, p.total)
    | .Readable k p rs =>
        (Api.readable_kind_str k, Api.read_status_str rs, p.current, p.total)
  { id := item.id.toCanonical
  , title := item.title
  , media_type := mtp.1
  , status := mtp.2.1
  , score := item.get_score_display
  , global_score := item.get_global_score_display
  , progress := mtp.2.2.1
  , total_episodes := mtp.2.2.2
  , poster_url := item.poster_url
  , source := item.source
  , external_id := item.external_id.map (fun e => toString e)
  , tags := tagsToList item.tags
  , favorite := decide ("favorite" ∈ item.tags) }

/-- The media_type dispatch inside into_media_item (api_types.rs lines
85-121), extracted as a named function over the same code. -/
def Api.wire_media_type (media_type status : String) (progress : Progress) :
    Except String MediaItemType :=
  match media_type with
  | "movie" => .ok (.Movie (Api.parse_watch_status status))
  | "series" | "anime" =>
      .ok (.Series progress (Api.parse_watch_status status))
  | "manga" =>
      .ok (.Readable .Manga progress (Api.parse_read_status status))
  | "manhwa" =>
      .ok (.Readable .Manhwa progress (Api.parse_read_status status))
  | "webtoon" =>
      .ok (.Readable .Webtoon progress (Api.parse_read_status status))
  | "book" =>
      .ok (.Readable .Book progress (Api.parse_read_status status))
  | "light_novel" =>
      .ok (.Readable .LightNovel progress (Api.parse_read_status status))
  | "web_novel" =>
      .ok (.Readable .WebNovel progress (Api.parse_read_status status))
  | other => .error ("Unknown media_type: " ++ other)

/-- ApiMediaItem::into_media_item (api_types.rs lines 73-149). The fresh
argument models Uuid::new_v4 for the empty-id branch. -/
def ApiMediaItem.into_media_item (self : ApiMediaItem) (fresh : Uuid) :
    Except String MediaItem :=
  match (if self.id = "" then some fresh else Uuid.parse_str self.id) with
  | none => .error "Invalid UUID"
  | some id =>
    let progress : Progress := ⟨self.progress, self.total_episodes⟩
    match Api.wire_media_type self.media_type self.status progress with
    | .error e => .error e
    | .ok media_type =>
      let tags0 : Finset String := self.tags.toFinset
      let tags := if self.favorite then insert "favorite" tags0 else tags0
      let item : MediaItem :=
        { id := id
        , title := self.title
        , media_type := media_type
        , score := none
        , global_score := none
        , external_id := self.external_id.bind parseU32
        , poster_url := self.poster_url
        , source := self.source
        , tags := tags }
      let item1 := match self.score with
        | some s => item.set_score s
        | none => item
      let item2 := match self.global_score with
        | some g => item1.set_global_score g
        | none => item1
      .ok item2

instance {ε α : Type} [DecidableEq ε] [DecidableEq α] : DecidableEq (Except ε α) :=
  fun a b =>
    match a, b with
    | .error e, .error f =>
        if h : e = f then .isTrue (h ▸ rfl)
        else .isFalse (fun c => h (Except.error.inj c))
    | .error _, .ok _ => .isFalse (fun c => Except.noConfusion c)
    | .ok _, .error _ => .isFalse (fun c => Except.noConfusion c)
    | .ok x, .ok y =>
        if h : x = y then .isTrue (h ▸ rfl)
        else .isFalse (fun c => h (Except.ok.inj c))

/-! ## Persistence layer (src/backend/src/infra/database.rs) -/

/-- StorageError from src/backend/src/core/storage.rs; the Io and
Serialization payloads (library error values) are elided to strings. -/
inductive StorageError where
  | Io (msg : String)
  | Serialization (msg : String)
  | Corruption (msg : String)
  | Database (msg : String)
deriving DecidableEq, Repr

/-- Relational row shape of the media_items table (database.rs migration):
nullable columns are Options; the tags TEXT column is modelled at the JSON
value level (some list of strings when well formed, none otherwise). -/
structure Row where
  id : String
  title : String
  media_type : String
  readable_kind : Option String
  watch_status : Option String
  read_status : Option String
  progress_cur : Int
  progress_tot : Option Int
  score : Option Int
  global_score : Option Int
  external_id : Option Int
  poster_url : Option String
  source : Option String
  tags : Option (List String)
deriving DecidableEq, Repr

/-- Rust as-cast i64 to u32: low 32 bits. -/
def u32cast (i : Int) : Nat := (i % (2 ^ 32)).toNat

/-- Rust as-cast i64 to u8: low 8 bits. -/
def u8cast (i : Int) : Nat := (i % (2 ^ 8)).toNat

namespace Db

def watch_str : WatchStatus → String
  | .Watching => "watching"
  | .PlanToWatch => "plan_to_watch"
  | .Completed => "completed"
  | .OnHold => "on_hold"
  | .Dropped => "dropped"

def read_str : ReadStatus → String
  | .Reading => "reading"
  | .PlanToRead => "plan_to_read"
  | .Completed => "completed"
  | .OnHold => "on_hold"
  | .Dropped => "dropped"

def readable_str : ReadableKind → String
  | .Book => "book"
  | .WebNovel => "web_novel"
  | .LightNovel => "light_novel"
  | .Manga => "manga"
  | .Manhwa => "manhwa"
  | .Webtoon => "webtoon"

def parse_watch_status : Option String → WatchStatus
  | some "watching" => .Watching
  | some "plan_to_watch" => .PlanToWatch
  | some "completed" => .Completed
  | some "on_hold" => .OnHold
  | some "dropped" => .Dropped
  | _ => .PlanToWatch

def parse_read_status : Option String → ReadStatus
  | some "reading" => .Reading
  | some "plan_to_read" => .PlanToRead
  | some "completed" => .Completed
  | some "on_hold" => .OnHold
  | some "dropped" => .Dropped
  | _ => .PlanToRead

def parse_readable_kind : Option String → ReadableKind
  | some "book" => .Book
  | some "web_novel" => .WebNovel
  | some "light_novel" => .LightNovel
  | some "manga" => .Manga
  | some "manhwa" => .Manhwa
  | some "webtoon" => .Webtoon
  | _ => .Book

/-- decompose_media_type (database.rs lines 284-308). -/
def decompose_media_type (mt : MediaItemType) :
    String × Option String × Option String × Option String × Nat × Option Nat :=
  match mt with
  | .Movie ws => ("movie", none, some (watch_str ws), none, 0, none)
  | .Series p ws => ("series", none, some (watch_str ws), none, p.current, p.total)
  | .Readable k p rs =>
      ("readable", some (readable_str k), none, some (read_str rs), p.current, p.total)

/-- The column values written by upsert_item and insert_item_in_tx
(database.rs lines 142-174 and 248-282): decompose_media_type plus the
remaining fields, with u32 and u8 values widened to i64 and the tag set
serialized as a JSON array. -/
def item_to_row (item : MediaItem) : Row :=
  match decompose_media_type item.media_type with
  | (media_type, readable_kind, watch_status, read_status, cur, tot) =>
    { id := item.id.toCanonical
    , title := item.title
    , media_type := media_type
    , readable_kind := readable_kind
    , watch_status := watch_status
    , read_status := read_status
    , progress_cur := (cur : Int)
    , progress_tot := tot.map (fun t : Nat => (t : Int))
    , score := item.score.map (fun s : Nat => (s : Int))
    , global_score := item.global_score.map (fun s : Nat => (s : Int))
    , external_id := item.external_id.map (fun e : Nat => (e : Int))
    , poster_url := item.poster_url
    , source := item.source
    , tags := some (tagsToList item.tags) }

/-- The media_type dispatch inside row_to_media_item (database.rs lines
394-413), extracted as a named function over the same code. -/
def row_media_type (row : Row) (progress : Progress) :
    Except StorageError MediaItemType :=
  match row.media_type with
  | "movie" => .ok (.Movie (parse_watch_status row.watch_status))
  | "series" => .ok (.Series progress (parse_watch_status row.watch_status))
  | "readable" =>
      .ok (.Readable (parse_readable_kind row.readable_kind) progress
            (parse_read_status row.read_status))
  | other => .error (.Corruption ("Unknown media_type: " ++ other))

/-- row_to_media_item (database.rs lines 310-428). -/
def row_to_media_item (row : Row) : Except StorageError MediaItem :=
  match Uuid.parse_str row.id with
  | none => .error (.Corruption "Invalid UUID")
  | some id =>
    let progress : Progress :=
      ⟨u32cast row.progress_cur, row.progress_tot.map u32cast⟩
    match row_media_type row progress with
    | .error e => .error e
    | .ok media_type =>
      .ok { id := id
          , title := row.title
          , media_type := media_type
          , score := row.score.map u8cast
          , global_score := row.global_score.map u8cast
          , external_id := row.external_id.map u32cast
          , poster_url := row.poster_url
          , source := row.source
          , tags := (row.tags.getD []).toFinset }

end Db

/-! ## Observation helpers for the claims -/

/-- The kind discriminator of a media record, with Readable sub-kind. -/
inductive KindTag where
  | movie
  | series
  | readable (k : ReadableKind)
deriving DecidableEq, Repr

def kindOf : MediaItemType → KindTag
  | .Movie _ => .movie
  | .Series _ _ => .series
  | .Readable k _ _ => .readable k

/-- The active status of a media record, across both vocabularies. -/
inductive StatusVal where
  | watch (ws : WatchStatus)
  | read (rs : ReadStatus)
deriving DecidableEq, Repr

def statusOf : MediaItemType → StatusVal
  | .Movie ws => .watch ws
  | .Series _ ws => .watch ws
  | .Readable _ _ rs => .read rs

/-- The embedded progress of a media record; none for movies. -/
def progressOf : MediaItemType → Option Progress
  | .Movie _ => none
  | .Series p _ => some p
  | .Readable _ p _ => some p

/-- The media_type strings recognized by into_media_item. -/
def knownMediaTypes : List String :=
  ["movie", "series", "anime", "manga", "manhwa", "webtoon", "book",
   "light_novel", "web_novel"]

/-- The status strings recognized by the wire status parsers. -/
def knownStatuses : List String :=
  ["watching", "reading", "plan_to_watch", "plan_to_read", "completed",
   "on_hold", "dropped"]

/-- A wire id that does not make into_media_item fail: empty (fresh id)
or parseable. -/
def idOk (api : ApiMediaItem) : Prop :=
  api.id = "" ∨ (Uuid.parse_str api.id).isSome = true

instance (api : ApiMediaItem) : Decidable (idOk api) := by
  unfold idOk; infer_instance

/-! ## Helper lemmas -/

theorem Uuid.parse_str_val (u : Uuid) : Uuid.parse_str u.val = some u := by
  simp [Uuid.parse_str, u.prop]

theorem Uuid.val_ne_empty (u : Uuid) : u.val ≠ "" := by
  intro h
  have := u.prop
  rw [h] at this
  simp [isCanonicalUuid] at this

theorem api_parse_watch_roundtrip (ws : WatchStatus) :
    Api.parse_watch_status (Api.watch_status_str ws) = ws := by
  cases ws <;> rfl

theorem api_parse_read_roundtrip (rs : ReadStatus) :
    Api.parse_read_status (Api.read_status_str rs) = rs := by
  cases rs <;> rfl

theorem db_parse_watch_roundtrip (ws : WatchStatus) :
    Db.parse_watch_status (some (Db.watch_str ws)) = ws := by
  cases ws <;> rfl

theorem db_parse_read_roundtrip (rs : ReadStatus) :
    Db.parse_read_status (some (Db.read_str rs)) = rs := by
  cases rs <;> rfl

theorem db_parse_kind_roundtrip (k : ReadableKind) :
    Db.parse_readable_kind (some (Db.readable_str k)) = k := by
  cases k <;> rfl

theorem tagsToList_toFinset (s : Finset String) : (tagsToList s).toFinset = s :=
  Finset.sort_toFinset _ s

theorem favorite_insert (s : Finset String) :
    (if decide ("favorite" ∈ s) = true then insert "favorite" s else s) = s := by
  by_cases h : "favorite" ∈ s
  · simp [h]
  · simp [h]

theorem u8cast_natCast (s : Nat) (h : s < 256) : u8cast (s : Int) = s := by
  unfold u8cast
  rw [show (2 : Int) ^ 8 = 256 by norm_num]
  omega

theorem u32cast_natCast (s : Nat) (h : s < 2 ^ 32) : u32cast (s : Int) = s := by
  unfold u32cast
  rw [show (2 : Int) ^ 32 = 4294967296 by norm_num]
  omega

theorem clamp_score_display (s : Nat) (h : s ≤ 100) :
    MediaItem.clamp_score ((s : ℚ) / 10) = s := by
  unfold MediaItem.clamp_score f32_clamp f32_round
  have h0 : (0 : ℚ) ≤ (s : ℚ) / 10 := by positivity
  have h10 : (s : ℚ) / 10 ≤ 10 := by
    rw [div_le_iff₀ (by norm_num : (0:ℚ) < 10)]
    exact_mod_cast (by omega : s ≤ 100)
  rw [max_eq_left h0, min_eq_left h10, div_mul_cancel₀ _ (by norm_num : (10:ℚ) ≠ 0)]
  rw [if_pos (by positivity : (0:ℚ) ≤ (s:ℚ))]
  have hfl : ⌊(s : ℚ) + 1/2⌋ = (s : Int) := by
    rw [Int.floor_eq_iff]
    constructor
    · push_cast; linarith
    · push_cast; linarith
  rw [hfl]
  omega

/-! ## Concrete inputs used by witnesses and counterexamples -/

def uuidA : Uuid := ⟨"123e4567-e89b-12d3-a456-426614174000", by decide⟩

def zeroSeriesItem : MediaItem :=
  { id := uuidA, title := "Z", media_type := .Series ⟨0, none⟩ .Watching
  , score := none, global_score := none, external_id := none
  , poster_url := none, source := none, tags := ∅ }

def mangaThree : MediaItem :=
  { id := uuidA, title := "One Piece", media_type := .Readable .Manga ⟨3, none⟩ .Reading
  , score := none, global_score := none, external_id := none
  , poster_url := none, source := none, tags := ∅ }

/-- Claim C5 (amended) -/
theorem c5_force_complete_finishes (m : MediaItem) (p : Progress)
    (hp : progressOf m.media_type = some p)
    (ht : 0 < p.total.getD p.current) :
    ∃ q, progressOf m.force_complete.media_type = some q ∧ q.is_finished = true := by
  cases hm : m.media_type with
  | Movie ws => rw [hm] at hp; simp [progressOf] at hp
  | Series p0 ws =>
      rw [hm] at hp
      simp only [progressOf, Option.some.injEq] at hp
      subst hp
      refine ⟨⟨p0.total.getD p0.current, some (p0.total.getD p0.current)⟩, ?_, ?_⟩
      · simp [MediaItem.force_complete, hm, progressOf]
      · simp only [Progress.is_finished]
        rw [Bool.and_eq_true]
        exact ⟨decide_eq_true ht, decide_eq_true (le_refl _)⟩
  | Readable k p0 rs =>
      rw [hm] at hp
      simp only [progressOf, Option.some.injEq] at hp
      subst hp
      refine ⟨⟨p0.total.getD p0.current, some (p0.total.getD p0.current)⟩, ?_, ?_⟩
      · simp [MediaItem.force_complete, hm, progressOf]
      · simp only [Progress.is_finished]
        rw [Bool.and_eq_true]
        exact ⟨decide_eq_true ht, decide_eq_true (le_refl _)⟩

/-- Claim C5 counterexample -/
theorem c5_zero_progress_cex :
    progressOf zeroSeriesItem.force_complete.media_type = some ⟨0, some 0⟩ ∧
    Progress.is_finished ⟨0, some 0⟩ = false := ⟨rfl, rfl⟩

/-- Claim C5 witness -/
theorem c5_force_complete_finishes_witness :
    progressOf mangaThree.media_type = some ⟨3, none⟩ ∧
    0 < ((⟨3, none⟩ : Progress).total.getD (⟨3, none⟩ : Progress).current) ∧
    ∃ q, progressOf mangaThree.force_complete.media_type = some q ∧
      q.is_finished = true :=
  ⟨rfl, by decide, c5_force_complete_finishes mangaThree ⟨3, none⟩ rfl (by decide)⟩

/-- Claim C6 -/
theorem c6_percent_spec (p : Progress) :
    (∀ t, p.total = some t → 0 < t →
        p.percent = some (100 * (p.current : ℚ) / (t : ℚ))) ∧
    (p.total = some 0 → p.percent = some 0) ∧
    (p.total = none → p.percent = none) ∧
    (∀ t, p.total = some t → 0 < t → t < p.current →
        ∃ q, p.percent = some q ∧ 100 < q) := by
  refine ⟨?_, ?_, ?_, ?_⟩
  · intro t ht hpos
    simp only [Progress.percent, ht, if_pos hpos, Option.some.injEq]
    ring
  · intro ht; simp [Progress.percent, ht]
  · intro ht; simp [Progress.percent, ht]
  · intro t ht hpos hlt
    refine ⟨(p.current : ℚ) / (t : ℚ) * 100, by simp [Progress.percent, ht, hpos], ?_⟩
    have hq : (t : ℚ) < (p.current : ℚ) := by exact_mod_cast hlt
    have htq : (0 : ℚ) < (t : ℚ) := by exact_mod_cast hpos
    have h1 : 1 < (p.current : ℚ) / (t : ℚ) := (one_lt_div htq).mpr hq
    nlinarith

/-- Claim C6 witness -/
theorem c6_percent_spec_witness :
    Progress.percent ⟨5, some 4⟩ = some (100 * (5 : ℚ) / (4 : ℚ)) ∧
    Progress.percent ⟨7, some 0⟩ = some 0 ∧
    Progress.percent ⟨7, none⟩ = none ∧
    ∃ q, Progress.percent ⟨5, some 4⟩ = some q ∧ 100 < q :=
  ⟨(c6_percent_spec ⟨5, some 4⟩).1 4 rfl (by decide),
   (c6_percent_spec ⟨7, some 0⟩).2.1 rfl,
   (c6_percent_spec ⟨7, none⟩).2.2.1 rfl,
   (c6_percent_spec ⟨5, some 4⟩).2.2.2 4 rfl (by decide) (by decide)⟩

/-- Claim C7 -/
theorem c7_is_completed_iff (m : MediaItem) :
    m.is_completed = true ↔
      (statusOf m.media_type = .watch .Completed ∨
       statusOf m.media_type = .read .Completed ∨
       ∃ p, progressOf m.media_type = some p ∧ p.is_finished = true) := by
  cases hm : m.media_type with
  | Movie ws => cases ws <;> simp [MediaItem.is_completed, hm, statusOf, progressOf]
  | Series p ws => cases ws <;> simp [MediaItem.is_completed, hm, statusOf, progressOf]
  | Readable k p rs => cases rs <;> simp [MediaItem.is_completed, hm, statusOf, progressOf]

/-- Claim C8 -/
theorem c8_force_complete_idem (m : MediaItem) :
    m.force_complete.force_complete = m.force_complete := by
  cases m with
  | mk id title mt score gs eid purl src tags => cases mt <;> rfl

/-! ## Mapping characterization lemmas -/

theorem into_id_some (api : ApiMediaItem) (fresh : Uuid) (h : idOk api) :
    ∃ u, (if api.id = "" then some fresh else Uuid.parse_str api.id) = some u := by
  rcases h with h | h
  · exact ⟨fresh, by rw [if_pos h]⟩
  · obtain ⟨u, hu⟩ := Option.isSome_iff_exists.mp h
    by_cases he : api.id = ""
    · exact ⟨fresh, by rw [if_pos he]⟩
    · exact ⟨u, by rw [if_neg he]; exact hu⟩

theorem into_media_item_ok (api : ApiMediaItem) (fresh u : Uuid)
    (hu : (if api.id = "" then some fresh else Uuid.parse_str api.id) = some u)
    (mt : MediaItemType)
    (hmt : Api.wire_media_type api.media_type api.status
        ⟨api.progress, api.total_episodes⟩ = Except.ok mt) :
    api.into_media_item fresh = .ok
      { id := u
      , title := api.title
      , media_type := mt
      , score := api.score.map MediaItem.clamp_score
      , global_score := api.global_score.map MediaItem.clamp_score
      , external_id := api.external_id.bind parseU32
      , poster_url := api.poster_url
      , source := api.source
      , tags := if api.favorite then insert "favorite" api.tags.toFinset
                else api.tags.toFinset } := by
  unfold ApiMediaItem.into_media_item
  simp only [hu, hmt]
  cases hs : api.score <;> cases hg : api.global_score <;>
    simp [MediaItem.set_score, MediaItem.set_global_score, hs, hg]

theorem into_media_item_err (api : ApiMediaItem) (fresh u : Uuid)
    (hu : (if api.id = "" then some fresh else Uuid.parse_str api.id) = some u)
    (e : String)
    (hmt : Api.wire_media_type api.media_type api.status
        ⟨api.progress, api.total_episodes⟩ = Except.error e) :
    api.into_media_item fresh = .error e := by
  unfold ApiMediaItem.into_media_item
  simp only [hu, hmt]

theorem wire_media_type_unknown (mt st : String) (p : Progress)
    (h : mt ∉ knownMediaTypes) :
    Api.wire_media_type mt st p = .error ("Unknown media_type: " ++ mt) := by
  simp only [knownMediaTypes, List.mem_cons, List.not_mem_nil, or_false, not_or] at h
  unfold Api.wire_media_type
  split <;> simp_all

theorem wire_media_type_known (mt st : String) (p : Progress)
    (h : mt ∈ knownMediaTypes) :
    ∃ t, Api.wire_media_type mt st p = .ok t ∧
      statusOf t = (if mt = "movie" ∨ mt = "series" ∨ mt = "anime"
                    then StatusVal.watch (Api.parse_watch_status st)
                    else StatusVal.read (Api.parse_read_status st)) := by
  simp only [knownMediaTypes, List.mem_cons, List.not_mem_nil, or_false] at h
  rcases h with h|h|h|h|h|h|h|h|h <;> subst h <;> exact ⟨_, rfl, by simp [statusOf]⟩

theorem api_parse_watch_unknown (s : String) (h : s ∉ knownStatuses) :
    Api.parse_watch_status s = .PlanToWatch := by
  simp only [knownStatuses, List.mem_cons, List.not_mem_nil, or_false, not_or] at h
  unfold Api.parse_watch_status
  split <;> simp_all

theorem api_parse_read_unknown (s : String) (h : s ∉ knownStatuses) :
    Api.parse_read_status s = .PlanToRead := by
  simp only [knownStatuses, List.mem_cons, List.not_mem_nil, or_false, not_or] at h
  unfold Api.parse_read_status
  split <;> simp_all

def knownDbMediaTypes : List String := ["movie", "series", "readable"]

def watchVocab : List String :=
  ["watching", "plan_to_watch", "completed", "on_hold", "dropped"]

def readVocab : List String :=
  ["reading", "plan_to_read", "completed", "on_hold", "dropped"]

def kindVocab : List String :=
  ["book", "web_novel", "light_novel", "manga", "manhwa", "webtoon"]

theorem row_to_media_item_ok (row : Row) (u : Uuid)
    (hu : Uuid.parse_str row.id = some u) (mt : MediaItemType)
    (hmt : Db.row_media_type row
        ⟨u32cast row.progress_cur, row.progress_tot.map u32cast⟩ = Except.ok mt) :
    Db.row_to_media_item row = .ok
      { id := u
      , title := row.title
      , media_type := mt
      , score := row.score.map u8cast
      , global_score := row.global_score.map u8cast
      , external_id := row.external_id.map u32cast
      , poster_url := row.poster_url
      , source := row.source
      , tags := (row.tags.getD []).toFinset } := by
  unfold Db.row_to_media_item
  simp only [hu, hmt]

theorem row_to_media_item_err (row : Row) (u : Uuid)
    (hu : Uuid.parse_str row.id = some u) (e : StorageError)
    (hmt : Db.row_media_type row
        ⟨u32cast row.progress_cur, row.progress_tot.map u32cast⟩ = Except.error e) :
    Db.row_to_media_item row = .error e := by
  unfold Db.row_to_media_item
  simp only [hu, hmt]

theorem row_to_media_item_bad_id (row : Row)
    (hu : Uuid.parse_str row.id = none) :
    Db.row_to_media_item row = .error (.Corruption "Invalid UUID") := by
  unfold Db.row_to_media_item
  simp only [hu]

theorem row_media_type_unknown (row : Row) (p : Progress)
    (h : row.media_type ∉ knownDbMediaTypes) :
    Db.row_media_type row p =
      .error (.Corruption ("Unknown media_type: " ++ row.media_type)) := by
  simp only [knownDbMediaTypes, List.mem_cons, List.not_mem_nil, or_false, not_or] at h
  unfold Db.row_media_type
  split <;> simp_all

theorem row_media_type_known (row : Row) (p : Progress)
    (h : row.media_type ∈ knownDbMediaTypes) :
    ∃ t, Db.row_media_type row p = .ok t := by
  simp only [knownDbMediaTypes, List.mem_cons, List.not_mem_nil, or_false] at h
  unfold Db.row_media_type
  rcases h with h|h|h <;> rw [h] <;> exact ⟨_, rfl⟩

theorem db_parse_watch_unknown (o : Option String)
    (h : ∀ s, o = some s → s ∉ watchVocab) :
    Db.parse_watch_status o = .PlanToWatch := by
  unfold Db.parse_watch_status
  split
  case _ => exact absurd (by simp [watchVocab]) (h "watching" rfl)
  case _ => rfl
  case _ => exact absurd (by simp [watchVocab]) (h "completed" rfl)
  case _ => exact absurd (by simp [watchVocab]) (h "on_hold" rfl)
  case _ => exact absurd (by simp [watchVocab]) (h "dropped" rfl)
  case _ => rfl

theorem db_parse_read_unknown (o : Option String)
    (h : ∀ s, o = some s → s ∉ readVocab) :
    Db.parse_read_status o = .PlanToRead := by
  unfold Db.parse_read_status
  split
  case _ => exact absurd (by simp [readVocab]) (h "reading" rfl)
  case _ => rfl
  case _ => exact absurd (by simp [readVocab]) (h "completed" rfl)
  case _ => exact absurd (by simp [readVocab]) (h "on_hold" rfl)
  case _ => exact absurd (by simp [readVocab]) (h "dropped" rfl)
  case _ => rfl

theorem db_parse_kind_unknown (o : Option String)
    (h : ∀ s, o = some s → s ∉ kindVocab) :
    Db.parse_readable_kind o = .Book := by
  unfold Db.parse_readable_kind
  split
  case _ => rfl
  case _ => exact absurd (by simp [kindVocab]) (h "web_novel" rfl)
  case _ => exact absurd (by simp [kindVocab]) (h "light_novel" rfl)
  case _ => exact absurd (by simp [kindVocab]) (h "manga" rfl)
  case _ => exact absurd (by simp [kindVocab]) (h "manhwa" rfl)
  case _ => exact absurd (by simp [kindVocab]) (h "webtoon" rfl)
  case _ => rfl

/-- Claim C3: into_media_item fails with an error naming the value for
every unrecognized media_type string, while an unrecognized status string
does not fail: it falls back to the kind-appropriate plan state. -/
theorem c3_wire_error_policy (api : ApiMediaItem) (fresh : Uuid) :
    (api.media_type ∉ knownMediaTypes → idOk api →
      api.into_media_item fresh =
        .error ("Unknown media_type: " ++ api.media_type)) ∧
    (api.media_type ∈ knownMediaTypes → api.status ∉ knownStatuses → idOk api →
      ∃ m, api.into_media_item fresh = .ok m ∧
        statusOf m.media_type =
          (if api.media_type = "movie" ∨ api.media_type = "series" ∨
              api.media_type = "anime"
           then StatusVal.watch .PlanToWatch
           else StatusVal.read .PlanToRead)) := by
  constructor
  · intro hmt hid
    obtain ⟨u, hu⟩ := into_id_some api fresh hid
    exact into_media_item_err api fresh u hu _
      (wire_media_type_unknown _ _ _ hmt)
  · intro hmt hst hid
    obtain ⟨u, hu⟩ := into_id_some api fresh hid
    obtain ⟨t, ht, hstat⟩ :=
      wire_media_type_known api.media_type api.status
        ⟨api.progress, api.total_episodes⟩ hmt
    refine ⟨_, into_media_item_ok api fresh u hu t ht, ?_⟩
    rw [hstat, api_parse_watch_unknown _ hst, api_parse_read_unknown _ hst]

/-- Claim C3 witness -/
def apiDvd : ApiMediaItem :=
  { id := "", title := "X", media_type := "dvd", status := "completed"
  , score := none, global_score := none, progress := 0, total_episodes := none
  , poster_url := none, source := none, external_id := none, tags := []
  , favorite := false }

def apiWeirdStatus : ApiMediaItem :=
  { id := "", title := "Y", media_type := "movie", status := "binging"
  , score := none, global_score := none, progress := 0, total_episodes := none
  , poster_url := none, source := none, external_id := none, tags := []
  , favorite := false }

theorem c3_wire_error_policy_witness :
    apiDvd.into_media_item uuidA = .error ("Unknown media_type: " ++ "dvd") ∧
    ∃ m, apiWeirdStatus.into_media_item uuidA = .ok m ∧
      statusOf m.media_type = StatusVal.watch .PlanToWatch := by
  constructor
  · exact (c3_wire_error_policy apiDvd uuidA).1 (by decide) (Or.inl rfl)
  · have h := (c3_wire_error_policy apiWeirdStatus uuidA).2 (by decide)
      (by decide) (Or.inl rfl)
    simpa using h

/-- Claim C4 -/
theorem c4_row_error_policy (row : Row) :
    ((Uuid.parse_str row.id).isSome = true → row.media_type ∉ knownDbMediaTypes →
      Db.row_to_media_item row =
        .error (.Corruption ("Unknown media_type: " ++ row.media_type))) ∧
    (Uuid.parse_str row.id = none →
      Db.row_to_media_item row = .error (.Corruption "Invalid UUID")) ∧
    ((Uuid.parse_str row.id).isSome = true → row.media_type ∈ knownDbMediaTypes →
      row.tags = none →
      ∃ m, Db.row_to_media_item row = .ok m ∧ m.tags = ∅) := by
  refine ⟨?_, ?_, ?_⟩
  · intro hid hmt
    obtain ⟨u, hu⟩ := Option.isSome_iff_exists.mp hid
    exact row_to_media_item_err row u hu _ (row_media_type_unknown _ _ hmt)
  · exact row_to_media_item_bad_id row
  · intro hid hmt htags
    obtain ⟨u, hu⟩ := Option.isSome_iff_exists.mp hid
    obtain ⟨t, ht⟩ := row_media_type_known row _ hmt
    refine ⟨_, row_to_media_item_ok row u hu t ht, ?_⟩
    simp [htags]

/-- Claim C4 witness -/
def rowCassette : Row :=
  { id := "123e4567-e89b-12d3-a456-426614174000", title := "A"
  , media_type := "cassette", readable_kind := none, watch_status := none
  , read_status := none, progress_cur := 0, progress_tot := none, score := none
  , global_score := none, external_id := none, poster_url := none
  , source := none, tags := some [] }

def rowBadId : Row := { rowCassette with id := "zzz", media_type := "movie" }

def rowBadTags : Row := { rowCassette with media_type := "movie", tags := none }

theorem c4_row_error_policy_witness :
    Db.row_to_media_item rowCassette =
      .error (.Corruption ("Unknown media_type: " ++ "cassette")) ∧
    Db.row_to_media_item rowBadId = .error (.Corruption "Invalid UUID") ∧
    ∃ m, Db.row_to_media_item rowBadTags = .ok m ∧ m.tags = ∅ := by
  refine ⟨?_, ?_, ?_⟩
  · exact (c4_row_error_policy rowCassette).1 (by decide) (by decide)
  · exact (c4_row_error_policy rowBadId).2.1 (by decide)
  · exact (c4_row_error_policy rowBadTags).2.2 (by decide) (by decide) rfl

/-- Claim C9 counterexample input: an otherwise valid wire item whose
title is the empty string. -/
def apiEmptyTitle : ApiMediaItem :=
  { id := "", title := "", media_type := "movie", status := "watching"
  , score := none, global_score := none, progress := 0, total_episodes := none
  , poster_url := none, source := none, external_id := none, tags := []
  , favorite := false }

/-- Claim C9 counterexample: recomposition does NOT fail on an empty
title; it succeeds and the produced record has an empty title. -/
theorem c9_empty_title_cex :
    ∃ m, apiEmptyTitle.into_media_item uuidA = .ok m ∧ m.title = "" := by
  refine ⟨_, into_media_item_ok apiEmptyTitle uuidA uuidA rfl
    (.Movie .Watching) rfl, rfl⟩

/-- Claim C9 (amended): into_media_item performs no title validation. -/
theorem c9_no_title_validation (api : ApiMediaItem) (fresh : Uuid)
    (hid : idOk api) (hmt : api.media_type ∈ knownMediaTypes) :
    ∃ m, api.into_media_item fresh = .ok m ∧ m.title = api.title := by
  obtain ⟨u, hu⟩ := into_id_some api fresh hid
  obtain ⟨t, ht, _⟩ :=
    wire_media_type_known api.media_type api.status
      ⟨api.progress, api.total_episodes⟩ hmt
  exact ⟨_, into_media_item_ok api fresh u hu t ht, rfl⟩

/-- Claim C9 witness -/
theorem c9_no_title_validation_witness :
    idOk apiEmptyTitle ∧ apiEmptyTitle.media_type ∈ knownMediaTypes ∧
    ∃ m, apiEmptyTitle.into_media_item uuidA = .ok m ∧
      m.title = apiEmptyTitle.title :=
  ⟨Or.inl rfl, by decide,
   c9_no_title_validation apiEmptyTitle uuidA (Or.inl rfl) (by decide)⟩

/-- Claim C10: lenient sub-column parsing during row recomposition. -/
theorem c10_row_leniency (row : Row)
    (hid : (Uuid.parse_str row.id).isSome = true) :
    (row.media_type = "movie" →
      (∀ s, row.watch_status = some s → s ∉ watchVocab) →
      ∃ m, Db.row_to_media_item row = .ok m ∧
        statusOf m.media_type = .watch .PlanToWatch) ∧
    (row.media_type = "series" →
      (∀ s, row.watch_status = some s → s ∉ watchVocab) →
      ∃ m, Db.row_to_media_item row = .ok m ∧
        statusOf m.media_type = .watch .PlanToWatch) ∧
    (row.media_type = "readable" →
      (∀ s, row.read_status = some s → s ∉ readVocab) →
      ∃ m, Db.row_to_media_item row = .ok m ∧
        statusOf m.media_type = .read .PlanToRead) ∧
    (row.media_type = "readable" →
      (∀ s, row.readable_kind = some s → s ∉ kindVocab) →
      ∃ m, Db.row_to_media_item row = .ok m ∧
        kindOf m.media_type = .readable .Book) := by
  obtain ⟨u, hu⟩ := Option.isSome_iff_exists.mp hid
  refine ⟨?_, ?_, ?_, ?_⟩
  · intro hmt hws
    refine ⟨_, row_to_media_item_ok row u hu (.Movie (Db.parse_watch_status row.watch_status))
      (by unfold Db.row_media_type; rw [hmt]; rfl), ?_⟩
    simp [statusOf, db_parse_watch_unknown _ hws]
  · intro hmt hws
    refine ⟨_, row_to_media_item_ok row u hu
      (.Series ⟨u32cast row.progress_cur, row.progress_tot.map u32cast⟩
        (Db.parse_watch_status row.watch_status))
      (by unfold Db.row_media_type; rw [hmt]; rfl), ?_⟩
    simp [statusOf, db_parse_watch_unknown _ hws]
  · intro hmt hrs
    refine ⟨_, row_to_media_item_ok row u hu
      (.Readable (Db.parse_readable_kind row.readable_kind)
        ⟨u32cast row.progress_cur, row.progress_tot.map u32cast⟩
        (Db.parse_read_status row.read_status))
      (by unfold Db.row_media_type; rw [hmt]; rfl), ?_⟩
    simp [statusOf, db_parse_read_unknown _ hrs]
  · intro hmt hrk
    refine ⟨_, row_to_media_item_ok row u hu
      (.Readable (Db.parse_readable_kind row.readable_kind)
        ⟨u32cast row.progress_cur, row.progress_tot.map u32cast⟩
        (Db.parse_read_status row.read_status))
      (by unfold Db.row_media_type; rw [hmt]; rfl), ?_⟩
    simp [kindOf, db_parse_kind_unknown _ hrk]

/-- Claim C10 witness inputs -/
def rowNullStatus : Row :=
  { id := "123e4567-e89b-12d3-a456-426614174000", title := "B"
  , media_type := "movie", readable_kind := none, watch_status := none
  , read_status := none, progress_cur := 0, progress_tot := none, score := none
  , global_score := none, external_id := none, poster_url := none
  , source := none, tags := some [] }

def rowWeirdReadable : Row :=
  { rowNullStatus with
      media_type := "readable",
      readable_kind := some "papyrus",
      read_status := some "perusing" }

theorem c10_row_leniency_witness :
    (∃ m, Db.row_to_media_item rowNullStatus = .ok m ∧
      statusOf m.media_type = .watch .PlanToWatch) ∧
    (∃ m, Db.row_to_media_item rowWeirdReadable = .ok m ∧
      statusOf m.media_type = .read .PlanToRead) ∧
    (∃ m, Db.row_to_media_item rowWeirdReadable = .ok m ∧
      kindOf m.media_type = .readable .Book) := by
  refine ⟨?_, ?_, ?_⟩
  · exact (c10_row_leniency rowNullStatus (by decide)).1 rfl (by decide)
  · exact (c10_row_leniency rowWeirdReadable (by decide)).2.2.1 rfl (by decide)
  · exact (c10_row_leniency rowWeirdReadable (by decide)).2.2.2 rfl (by decide)

/-- Claim C1 -/
theorem c1_wire_roundtrip (m : MediaItem) (fresh : Uuid)
    (hs : m.score.all (fun s => decide (s ≤ 100)) = true)
    (hg : m.global_score.all (fun s => decide (s ≤ 100)) = true) :
    ∃ m2, (ApiMediaItem.from_media_item m).into_media_item fresh = .ok m2 ∧
      kindOf m2.media_type = kindOf m.media_type ∧
      statusOf m2.media_type = statusOf m.media_type ∧
      m2.score = m.score ∧ m2.global_score = m.global_score ∧
      m2.tags = m.tags := by
  have hu : (if (ApiMediaItem.from_media_item m).id = "" then some fresh
      else Uuid.parse_str (ApiMediaItem.from_media_item m).id) = some m.id := by
    show (if m.id.val = "" then some fresh else Uuid.parse_str m.id.val) = some m.id
    rw [if_neg (Uuid.val_ne_empty m.id), Uuid.parse_str_val]
  have hscore :
      ((ApiMediaItem.from_media_item m).score).map MediaItem.clamp_score = m.score := by
    show (MediaItem.score_display m.score).map MediaItem.clamp_score = m.score
    cases hsc : m.score with
    | none => rfl
    | some s =>
        rw [hsc] at hs
        simp only [Option.all_some, decide_eq_true_eq] at hs
        simp [MediaItem.score_display, clamp_score_display s hs]
  have hgscore :
      ((ApiMediaItem.from_media_item m).global_score).map MediaItem.clamp_score =
        m.global_score := by
    show (MediaItem.score_display m.global_score).map MediaItem.clamp_score =
      m.global_score
    cases hsc : m.global_score with
    | none => rfl
    | some s =>
        rw [hsc] at hg
        simp only [Option.all_some, decide_eq_true_eq] at hg
        simp [MediaItem.score_display, clamp_score_display s hg]
  have htags :
      (if (ApiMediaItem.from_media_item m).favorite then
        insert "favorite" (ApiMediaItem.from_media_item m).tags.toFinset
      else (ApiMediaItem.from_media_item m).tags.toFinset) = m.tags := by
    show (if decide ("favorite" ∈ m.tags) = true then
        insert "favorite" (tagsToList m.tags).toFinset
      else (tagsToList m.tags).toFinset) = m.tags
    rw [tagsToList_toFinset]
    exact favorite_insert m.tags
  cases hm : m.media_type with
  | Movie ws =>
      have hw : Api.wire_media_type (ApiMediaItem.from_media_item m).media_type
          (ApiMediaItem.from_media_item m).status
          ⟨(ApiMediaItem.from_media_item m).progress,
           (ApiMediaItem.from_media_item m).total_episodes⟩ =
          .ok (.Movie ws) := by
        simp [ApiMediaItem.from_media_item, hm, Api.wire_media_type,
          api_parse_watch_roundtrip]
      exact ⟨_, into_media_item_ok _ fresh m.id hu _ hw, rfl, rfl, hscore, hgscore, htags⟩
  | Series p ws =>
      by_cases hsrc : m.source = some "anilist"
      all_goals {
        have hw : Api.wire_media_type (ApiMediaItem.from_media_item m).media_type
            (ApiMediaItem.from_media_item m).status
            ⟨(ApiMediaItem.from_media_item m).progress,
             (ApiMediaItem.from_media_item m).total_episodes⟩ =
            .ok (.Series ⟨p.current, p.total⟩ ws) := by
          simp [ApiMediaItem.from_media_item, hm, hsrc, Api.wire_media_type,
            api_parse_watch_roundtrip]
        exact ⟨_, into_media_item_ok _ fresh m.id hu _ hw, rfl, rfl, hscore, hgscore, htags⟩
      }
  | Readable k p rs =>
      have hw : Api.wire_media_type (ApiMediaItem.from_media_item m).media_type
          (ApiMediaItem.from_media_item m).status
          ⟨(ApiMediaItem.from_media_item m).progress,
           (ApiMediaItem.from_media_item m).total_episodes⟩ =
          .ok (.Readable k ⟨p.current, p.total⟩ rs) := by
        cases k <;>
          simp [ApiMediaItem.from_media_item, hm, Api.wire_media_type,
            Api.readable_kind_str, api_parse_read_roundtrip]
      exact ⟨_, into_media_item_ok _ fresh m.id hu _ hw, rfl, rfl, hscore, hgscore, htags⟩

theorem u8cast_opt_roundtrip (o : Option Nat)
    (h : o.all (fun s => decide (s < 256)) = true) :
    (o.map (fun s => ((s : Nat) : Int))).map u8cast = o := by
  cases o with
  | none => rfl
  | some s =>
      simp only [Option.all_some, decide_eq_true_eq] at h
      simp [u8cast_natCast s h]

theorem u32cast_opt_roundtrip (o : Option Nat)
    (h : o.all (fun s => decide (s < 2 ^ 32)) = true) :
    (o.map (fun s => ((s : Nat) : Int))).map u32cast = o := by
  cases o with
  | none => rfl
  | some s =>
      simp only [Option.all_some, decide_eq_true_eq] at h
      simp [u32cast_natCast s h]

/-- Claim C2 -/
theorem c2_row_roundtrip (m : MediaItem) (h : m.wf = true) :
    Db.row_to_media_item (Db.item_to_row m) = .ok m := by
  obtain ⟨mid, mtitle, mmt, msc, mgs, meid, mpu, msrc, mtags⟩ := m
  simp only [MediaItem.wf, Bool.and_eq_true] at h
  obtain ⟨⟨⟨hsc, hgs⟩, heid⟩, hp⟩ := h
  cases mmt with
  | Movie ws =>
      refine Eq.trans
        (row_to_media_item_ok _ mid (Uuid.parse_str_val mid) (.Movie ws) ?_) ?_
      · conv_rhs => rw [← db_parse_watch_roundtrip ws]
        rfl
      · simp [Db.item_to_row, Db.decompose_media_type,
          u8cast_opt_roundtrip msc hsc, u8cast_opt_roundtrip mgs hgs,
          u32cast_opt_roundtrip meid heid, tagsToList_toFinset]
  | Series p ws =>
      obtain ⟨pc, pt⟩ := p
      simp only [Progress.wf, Bool.and_eq_true, decide_eq_true_eq] at hp
      obtain ⟨hpc, hpt⟩ := hp
      refine Eq.trans
        (row_to_media_item_ok _ mid (Uuid.parse_str_val mid)
          (.Series ⟨u32cast ((pc : Nat) : Int),
            (pt.map (fun t => ((t : Nat) : Int))).map u32cast⟩ ws) ?_) ?_
      · conv_rhs => rw [← db_parse_watch_roundtrip ws]
        rfl
      · simp [Db.item_to_row, Db.decompose_media_type,
          u32cast_natCast pc hpc, u32cast_opt_roundtrip pt (by simpa using hpt),
          u8cast_opt_roundtrip msc hsc, u8cast_opt_roundtrip mgs hgs,
          u32cast_opt_roundtrip meid heid, tagsToList_toFinset]
  | Readable k p rs =>
      obtain ⟨pc, pt⟩ := p
      simp only [Progress.wf, Bool.and_eq_true, decide_eq_true_eq] at hp
      obtain ⟨hpc, hpt⟩ := hp
      refine Eq.trans
        (row_to_media_item_ok _ mid (Uuid.parse_str_val mid)
          (.Readable k ⟨u32cast ((pc : Nat) : Int),
            (pt.map (fun t => ((t : Nat) : Int))).map u32cast⟩ rs) ?_) ?_
      · conv_rhs => rw [← db_parse_read_roundtrip rs, ← db_parse_kind_roundtrip k]
        rfl
      · simp [Db.item_to_row, Db.decompose_media_type,
          u32cast_natCast pc hpc, u32cast_opt_roundtrip pt (by simpa using hpt),
          u8cast_opt_roundtrip msc hsc, u8cast_opt_roundtrip mgs hgs,
          u32cast_opt_roundtrip meid heid, tagsToList_toFinset]

/-- Claim C1 witness input: a readable record with both scores, a source
and a favorite tag. -/
def sampleManga : MediaItem :=
  { id := uuidA, title := "Berserk"
  , media_type := .Readable .Manga ⟨3, some 10⟩ .Reading
  , score := some 85, global_score := some 100, external_id := some 77
  , poster_url := some "p", source := some "anilist"
  , tags := {"favorite", "dark"} }

/-- Claim C1 witness -/
theorem c1_wire_roundtrip_witness :
    sampleManga.score.all (fun s => decide (s ≤ 100)) = true ∧
    sampleManga.global_score.all (fun s => decide (s ≤ 100)) = true ∧
    ∃ m2, (ApiMediaItem.from_media_item sampleManga).into_media_item uuidA =
        .ok m2 ∧
      kindOf m2.media_type = kindOf sampleManga.media_type ∧
      statusOf m2.media_type = statusOf sampleManga.media_type ∧
      m2.score = sampleManga.score ∧
      m2.global_score = sampleManga.global_score ∧
      m2.tags = sampleManga.tags :=
  ⟨by decide, by decide, c1_wire_roundtrip sampleManga uuidA (by decide) (by decide)⟩

/-- Claim C2 witness input: a series record originating from anilist. -/
def sampleSeries : MediaItem :=
  { id := uuidA, title := "Frieren"
  , media_type := .Series ⟨5, some 28⟩ .Watching
  , score := some 90, global_score := some 91, external_id := some 154587
  , poster_url := some "q", source := some "anilist", tags := {"fantasy"} }

/-- Claim C2 witness -/
theorem c2_row_roundtrip_witness :
    sampleSeries.wf = true ∧
    Db.row_to_media_item (Db.item_to_row sampleSeries) = .ok sampleSeries :=
  ⟨by decide, c2_row_roundtrip sampleSeries (by decide)⟩
